import Mathlib

/-!
Shallow embedding of the SuperParallax repository (2D transform variant in
src/super-parallax.js, 3D Three.js variant in src/super-parallax-3d.js).
Numbers are modelled by the rationals; DOM elements and meshes by natural
number identities; the document style state by functions from identities to
style values. External event wiring, WebGL rendering and bound-rect reading
are collaborators excluded by the specification and appear only as inputs.
-/

namespace SuperParallax

/-- Effect configuration of the 2D variant, lines 16 to 23 of the source. -/
structure Options where
  scrollMultiplier : ℚ
  mouseMultiplier : ℚ
  smoothing : ℚ
  centerMouse : Bool
  resetOnMouseLeave : Bool
deriving DecidableEq

/-- Value held by the style.transform property of a DOM element: either a
plain string, or a base transform string followed by a translate3d with the
given x and y pixel amounts (lines 165 to 171 of the source). -/
inductive TransformVal where
  | str (s : String)
  | withTranslate (base : String) (tx ty : ℚ)
deriving DecidableEq

/-- One registered layer, as built at lines 55 to 62 of the source. -/
structure Layer where
  element : Nat
  depth : ℚ
  scrollSpeed : ℚ
  mouseSpeed : ℚ
  axis : String
  initialTransform : String
deriving DecidableEq

/-- Instance state of the 2D controller, lines 16 to 33 of the source; the
dom field models the style.transform of every document element, and the
listeners field models whether the event sources are registered. -/
structure State where
  options : Options
  layers : List Layer
  mouse : ℚ × ℚ
  targetMouse : ℚ × ℚ
  scroll : ℚ
  targetScroll : ℚ
  animationFrameId : Option Nat
  isActive : Bool
  listeners : Bool
  dom : Nat → TransformVal

/-- Linear interpolation, line 134 of the source. -/
def lerp (start finish factor : ℚ) : ℚ :=
  start + (finish - start) * factor

/-- Scroll offset of a layer, line 148 of the source. -/
def scrollOffset (scroll : ℚ) (layer : Layer) (opts : Options) : ℚ :=
  scroll * layer.scrollSpeed * opts.scrollMultiplier * 0.5

/-- Mouse X offset of a layer, line 149 of the source. -/
def mouseOffsetX (mx : ℚ) (layer : Layer) (opts : Options) : ℚ :=
  mx * layer.mouseSpeed * opts.mouseMultiplier * 50

/-- Mouse Y offset of a layer, line 150 of the source. -/
def mouseOffsetY (my : ℚ) (layer : Layer) (opts : Options) : ℚ :=
  my * layer.mouseSpeed * opts.mouseMultiplier * 50

/-- Per-layer translate pair computed by the axis-mask branches at lines 152
to 163 of the source. -/
def layerTranslate (scroll mx my : ℚ) (layer : Layer) (opts : Options) : ℚ × ℚ :=
  let tX : ℚ := if layer.axis = "both" ∨ layer.axis = "x"
    then mouseOffsetX mx layer opts else 0
  let tY : ℚ :=
    if layer.axis = "both" ∨ layer.axis = "y"
      then -(scrollOffset scroll layer opts) + mouseOffsetY my layer opts
    else if layer.axis = "x" then -(scrollOffset scroll layer opts)
    else 0
  (tX, tY)

/-- One tick of the frame loop, lines 138 to 175 of the source: bail out when
inactive, advance the three smoothed scalars, write every layer transform,
and reschedule (the fresh request id is an input from the scheduler). -/
def animate (s : State) (fid : Nat) : State :=
  if s.isActive then
    let scroll := lerp s.scroll s.targetScroll s.options.smoothing
    let mx := lerp s.mouse.1 s.targetMouse.1 s.options.smoothing
    let my := lerp s.mouse.2 s.targetMouse.2 s.options.smoothing
    let dom := s.layers.foldl
      (fun d layer =>
        let t := layerTranslate scroll mx my layer s.options
        Function.update d layer.element
          (TransformVal.withTranslate layer.initialTransform t.1 t.2))
      s.dom
    { s with scroll := scroll, mouse := (mx, my), dom := dom,
             animationFrameId := some fid }
  else s

/-- JavaScript truthiness of the animationFrameId field: null and 0 are
falsy. -/
def truthy : Option Nat → Bool
  | none => false
  | some n => n != 0

/-- Lines 186 to 192 of the source: clear the active flag and cancel a
pending frame request when one is held. -/
def stop (s : State) : State :=
  let s1 := { s with isActive := false }
  if truthy s1.animationFrameId then { s1 with animationFrameId := none } else s1

/-- Lines 177 to 184 of the source: no-op when already active, else seed the
scroll state from the external scroll position and run the first tick. -/
def start (s : State) (externalScroll : ℚ) (fid : Nat) : State :=
  if s.isActive then s
  else animate { s with isActive := true, targetScroll := externalScroll,
                        scroll := externalScroll } fid

/-- Lines 194 to 208 of the source: stop, deregister the event sources, write
every layer transform back to its captured initial value, clear the
registry. -/
def destroy (s : State) : State :=
  let s1 := stop s
  let s2 := { s1 with listeners := false }
  let dom := s2.layers.foldl
    (fun d layer => Function.update d layer.element
      (TransformVal.str layer.initialTransform))
    s2.dom
  { s2 with dom := dom, layers := [] }

/-- Lines 211 to 223 of the source: build a layer record, append it, return
the record itself (the captured initial transform is an input because reading
computed style is external). -/
def addLayer (s : State) (element : Nat) (depth scrollSpeed mouseSpeed : ℚ)
    (initial : String) : State × Layer :=
  let layer : Layer :=
    { element := element, depth := depth, scrollSpeed := scrollSpeed,
      mouseSpeed := mouseSpeed, axis := "both", initialTransform := initial }
  ({ s with layers := s.layers ++ [layer] }, layer)

/-- A JavaScript reference value that can be handed to removeLayer: strict
equality compares references, so an element reference and a layer record are
never equal. -/
inductive JSRef where
  | elemRef (id : Nat)
  | layerRef (l : Layer)
deriving DecidableEq

/-- Lines 225 to 230 of the source: findIndex on layer.element strict
equality followed by splice, i.e. erase the first layer whose element is the
given reference; silently keep the state otherwise. -/
def removeLayer (s : State) (x : JSRef) : State :=
  { s with layers := s.layers.eraseP (fun layer => x == JSRef.elemRef layer.element) }

/-- JavaScript fallback pattern parseFloat(a) || d used at lines 50 to 52 of
the source: an absent or non-numeric attribute (none) and a parsed value of 0
are falsy and give the fallback. -/
def floatOr : Option ℚ → ℚ → ℚ
  | none, d => d
  | some v, d => if v = 0 then d else v

/-- Layer discovery of the 2D variant, lines 49 to 62 of the source: depth
falls back to 1, both speeds fall back to depth, the axis attribute falls
back to the string both (an empty attribute string is falsy). -/
def mkLayer (element : Nat) (depthAttr scrollAttr mouseAttr : Option ℚ)
    (axisAttr : Option String) (initial : String) : Layer :=
  let depth := floatOr depthAttr 1
  { element := element, depth := depth,
    scrollSpeed := floatOr scrollAttr depth,
    mouseSpeed := floatOr mouseAttr depth,
    axis := match axisAttr with
      | some a => if a = "" then "both" else a
      | none => "both",
    initialTransform := initial }

/-- Discriminates the two outcomes of a construction. -/
def isOk {ε α : Type} : Except ε α → Bool
  | Except.ok _ => true
  | Except.error _ => false

/-- Construction of the 2D variant, lines 6 to 76 of the source: container
resolution happens outside (its result is the resolved input); a missing
container throws, otherwise the instance is initialised with the discovered
layers, listeners are registered and the loop starts. -/
def construct (resolved : Option Nat) (opts : Options) (discovered : List Layer)
    (dom0 : Nat → TransformVal) (externalScroll : ℚ) (fid : Nat) :
    Except String State :=
  match resolved with
  | none => Except.error "Container element not found"
  | some _ =>
    let s : State :=
      { options := opts, layers := discovered, mouse := (0, 0),
        targetMouse := (0, 0), scroll := 0, targetScroll := 0,
        animationFrameId := none, isActive := false, listeners := true,
        dom := dom0 }
    Except.ok (start s externalScroll fid)

/-- Repeated smoothing steps with a fixed target: the current value after n
ticks of the loop at line 142 of the source. -/
def advanceN (current target s : ℚ) : Nat → ℚ
  | 0 => current
  | n + 1 => lerp (advanceN current target s n) target s

end SuperParallax

namespace SuperParallax3D

/-- Effect configuration of the 3D variant, lines 23 to 30 of the source. -/
structure Options where
  scrollMultiplier : ℚ
  mouseMultiplier : ℚ
  smoothing : ℚ
  fov : ℚ
  cameraZ : ℚ
deriving DecidableEq

/-- One registered 3D layer, as built at lines 138 to 145 of the source; the
mesh is identified by a natural number and its captured initial position is a
coordinate triple. -/
structure Layer where
  meshId : Nat
  element : Nat
  depth : ℚ
  scrollSpeed : ℚ
  mouseSpeed : ℚ
  initialPosition : ℚ × ℚ × ℚ
deriving DecidableEq

/-- Instance state of the 3D controller: the scene is the list of mesh
identifiers currently added, meshPos and meshRot give every mesh its position
triple and its (rotX, rotY) pair, and visibility gives every DOM element the
value of its style.visibility property. -/
structure State where
  options : Options
  layers : List Layer
  sceneMeshes : List Nat
  meshPos : Nat → ℚ × ℚ × ℚ
  meshRot : Nat → ℚ × ℚ
  cameraPos : ℚ × ℚ × ℚ
  visibility : Nat → String
  mouse : ℚ × ℚ
  targetMouse : ℚ × ℚ
  scroll : ℚ
  targetScroll : ℚ
  isActive : Bool
  animationFrameId : Option Nat
  listeners : Bool
  rendererAttached : Bool

/-- Linear interpolation, line 188 of the source. -/
def lerp (start finish factor : ℚ) : ℚ :=
  start + (finish - start) * factor

/-- Per-layer update of one 3D tick, lines 206 to 214 of the source: the mesh
y position is the captured initial y minus the scroll offset (x and z keep
their current values), and both rotations follow the mouse scaled by depth. -/
def animateLayerStep (scroll mx my : ℚ) (st : State) (layer : Layer) : State :=
  let scrollOffset := scroll * layer.scrollSpeed * st.options.scrollMultiplier * 0.01
  { st with
    meshPos := Function.update st.meshPos layer.meshId
      ((st.meshPos layer.meshId).1,
       layer.initialPosition.2.1 - scrollOffset,
       (st.meshPos layer.meshId).2.2),
    meshRot := Function.update st.meshRot layer.meshId
      (my * 0.05 * layer.depth, mx * 0.05 * layer.depth) }

/-- One tick of the 3D frame loop, lines 192 to 220 of the source: bail out
when inactive, advance the smoothed scalars, move the camera by the mouse,
update every mesh, render, reschedule. -/
def animate (s : State) (fid : Nat) : State :=
  if s.isActive then
    let scroll := lerp s.scroll s.targetScroll s.options.smoothing
    let mx := lerp s.mouse.1 s.targetMouse.1 s.options.smoothing
    let my := lerp s.mouse.2 s.targetMouse.2 s.options.smoothing
    let s1 := { s with scroll := scroll, mouse := (mx, my),
                       cameraPos := (mx * s.options.mouseMultiplier,
                                     my * s.options.mouseMultiplier,
                                     s.cameraPos.2.2) }
    let s2 := s1.layers.foldl (animateLayerStep scroll mx my) s1
    { s2 with animationFrameId := some fid }
  else s

/-- Lines 231 to 237 of the source, same shape as the 2D stop. -/
def stop (s : State) : State :=
  let s1 := { s with isActive := false }
  if SuperParallax.truthy s1.animationFrameId then
    { s1 with animationFrameId := none }
  else s1

/-- Lines 222 to 229 of the source, same shape as the 2D start. -/
def start (s : State) (externalScroll : ℚ) (fid : Nat) : State :=
  if s.isActive then s
  else animate { s with isActive := true, targetScroll := externalScroll,
                        scroll := externalScroll } fid

/-- Per-layer cleanup of destroy, lines 244 to 251 of the source: remove the
mesh from the scene (geometry and material disposal is internal to the
removed mesh) and restore the visibility of the source element. -/
def destroyLayerStep (st : State) (layer : Layer) : State :=
  { st with sceneMeshes := st.sceneMeshes.erase layer.meshId,
            visibility := Function.update st.visibility layer.element "" }

/-- Lines 239 to 257 of the source: stop, deregister the event sources, run
the per-layer cleanup, detach the renderer, clear the registry. -/
def destroy (s : State) : State :=
  let s1 := stop s
  let s2 := { s1 with listeners := false }
  let s3 := s2.layers.foldl destroyLayerStep s2
  { s3 with rendererAttached := false, layers := [] }

/-- Layer discovery of the 3D variant, lines 92 to 145 of the source: depth
falls back to 0, both speeds fall back to depth, and the mesh is placed at z
equal to minus depth times 2, which is the captured initial position. -/
def mkLayer (meshId element : Nat) (depthAttr scrollAttr mouseAttr : Option ℚ) :
    Layer :=
  let depth := SuperParallax.floatOr depthAttr 0
  { meshId := meshId, element := element, depth := depth,
    scrollSpeed := SuperParallax.floatOr scrollAttr depth,
    mouseSpeed := SuperParallax.floatOr mouseAttr depth,
    initialPosition := (0, 0, -depth * 2) }

/-- Construction of the 3D variant, lines 9 to 87 of the source: a missing
Three.js global throws first, a missing container throws next, otherwise the
scene is built from the discovered layers (each source element hidden, each
mesh added at its initial position), listeners are registered and the loop
starts. -/
def construct (three : Bool) (resolved : Option Nat) (opts : Options)
    (discovered : List Layer) (vis0 : Nat → String) (externalScroll : ℚ)
    (fid : Nat) : Except String State :=
  if three = false then
    Except.error "Three.js is required. Include it before SuperParallax3D."
  else
    match resolved with
    | none => Except.error "Container element not found"
    | some _ =>
      let s : State :=
        { options := opts, layers := discovered,
          sceneMeshes := discovered.map Layer.meshId,
          meshPos := fun m =>
            match discovered.find? (fun l => l.meshId == m) with
            | some l => l.initialPosition
            | none => (0, 0, 0),
          meshRot := fun _ => (0, 0),
          cameraPos := (0, 0, opts.cameraZ),
          visibility := fun e =>
            if (discovered.map Layer.element).contains e then "hidden" else vis0 e,
          mouse := (0, 0), targetMouse := (0, 0), scroll := 0, targetScroll := 0,
          isActive := false, animationFrameId := none, listeners := true,
          rendererAttached := true }
      Except.ok (start s externalScroll fid)

end SuperParallax3D

namespace Ex

/-- Default 2D options of lines 16 to 23 of the source. -/
def opts2 : SuperParallax.Options :=
  { scrollMultiplier := 1, mouseMultiplier := 0.5, smoothing := 0.1,
    centerMouse := true, resetOnMouseLeave := true }

/-- A 2D instance with no layers and nothing running. -/
def emptyS : SuperParallax.State :=
  { options := opts2, layers := [], mouse := (0, 0), targetMouse := (0, 0),
    scroll := 0, targetScroll := 0, animationFrameId := none,
    isActive := false, listeners := true,
    dom := fun _ => SuperParallax.TransformVal.str "" }

/-- A running 2D instance whose scroll target just jumped to 100 and whose
mouse target is (4, 6). -/
def activeS : SuperParallax.State :=
  { options := opts2, layers := [], mouse := (0, 0), targetMouse := (4, 6),
    scroll := 0, targetScroll := 100, animationFrameId := some 3,
    isActive := true, listeners := true,
    dom := fun _ => SuperParallax.TransformVal.str "" }

/-- First concrete 2D layer: element 1, captured base transform base1. -/
def layA : SuperParallax.Layer :=
  { element := 1, depth := 1, scrollSpeed := 1, mouseSpeed := 1,
    axis := "both", initialTransform := "base1" }

/-- Second concrete 2D layer: element 2, empty base transform. -/
def layB : SuperParallax.Layer :=
  { element := 2, depth := 2, scrollSpeed := 2, mouseSpeed := 0,
    axis := "x", initialTransform := "" }

/-- A running 2D instance holding the two concrete layers. -/
def twoS : SuperParallax.State :=
  { options := opts2, layers := [layA, layB], mouse := (1, 1),
    targetMouse := (0, 0), scroll := 40, targetScroll := 40,
    animationFrameId := some 8, isActive := true, listeners := true,
    dom := fun _ => SuperParallax.TransformVal.str "" }

/-- Default 3D options of lines 23 to 30 of the source. -/
def opts3 : SuperParallax3D.Options :=
  { scrollMultiplier := 0.5, mouseMultiplier := 2, smoothing := 0.08,
    fov := 75, cameraZ := 5 }

/-- Concrete 3D layer: mesh 5 over element 9, depth attribute 1, so its
captured initial position is (0, 0, -2). -/
def lay3A : SuperParallax3D.Layer := SuperParallax3D.mkLayer 5 9 (some 1) none none

/-- Concrete 3D layer: mesh 6 over element 10, depth attribute 2. -/
def lay3B : SuperParallax3D.Layer := SuperParallax3D.mkLayer 6 10 (some 2) none none

/-- A running 3D instance whose single mesh has been scrolled to y = -7,
away from its captured initial position (0, 0, -2). -/
def scrolled3S : SuperParallax3D.State :=
  { options := opts3, layers := [lay3A], sceneMeshes := [5],
    meshPos := fun m => if m = 5 then (0, -7, -2) else (0, 0, 0),
    meshRot := fun _ => (0, 0), cameraPos := (0, 0, 5),
    visibility := fun _ => "hidden", mouse := (0, 0), targetMouse := (0, 0),
    scroll := 700, targetScroll := 700, isActive := true,
    animationFrameId := some 3, listeners := true, rendererAttached := true }

/-- A running 3D instance holding the two concrete layers. -/
def two3S : SuperParallax3D.State :=
  { options := opts3, layers := [lay3A, lay3B], sceneMeshes := [5, 6],
    meshPos := fun m => if m = 5 then (0, -7, -2) else (0, 0, -4),
    meshRot := fun _ => (0, 0), cameraPos := (0, 0, 5),
    visibility := fun _ => "hidden", mouse := (0, 0), targetMouse := (0, 0),
    scroll := 700, targetScroll := 700, isActive := true,
    animationFrameId := some 3, listeners := true, rendererAttached := true }

/-- An idle 2D instance, as left behind by stop with a frame request that was
already scheduled when stop ran. -/
def idleS : SuperParallax.State := { activeS with isActive := false }

/-- An idle 3D instance. -/
def idle3S : SuperParallax3D.State := { scrolled3S with isActive := false }

end Ex

section Helpers

variable {V L : Type}

theorem foldl_update_not_mem (elem : L → Nat) (val : L → V) :
    ∀ (layers : List L) (d : Nat → V) (e : Nat), e ∉ layers.map elem →
      (layers.foldl (fun d la => Function.update d (elem la) (val la)) d) e = d e := by
  intro layers
  induction layers with
  | nil => intro d e _; rfl
  | cons x xs ih =>
    intro d e he
    simp only [List.map_cons, List.mem_cons, not_or] at he
    simp only [List.foldl_cons]
    rw [ih _ _ he.2, Function.update_noteq he.1]

theorem foldl_update_apply (elem : L → Nat) (val : L → V) :
    ∀ (layers : List L) (d : Nat → V) (l : L), l ∈ layers →
      (layers.map elem).Nodup →
      (layers.foldl (fun d la => Function.update d (elem la) (val la)) d) (elem l)
        = val l := by
  intro layers
  induction layers with
  | nil => intro d l hl _; cases hl
  | cons x xs ih =>
    intro d l hl hnd
    simp only [List.map_cons, List.nodup_cons] at hnd
    rcases List.mem_cons.1 hl with rfl | hmem
    · simp only [List.foldl_cons]
      rw [foldl_update_not_mem elem val xs _ _ hnd.1, Function.update_same]
    · exact ih _ l hmem hnd.2

theorem foldl_erase_keeps_not_mem (mid : L → Nat) :
    ∀ (layers : List L) (l0 : List Nat) (a : Nat), a ∉ l0 →
      a ∉ layers.foldl (fun acc la => acc.erase (mid la)) l0 := by
  intro layers
  induction layers with
  | nil => intro l0 a ha; exact ha
  | cons x xs ih =>
    intro l0 a ha
    exact ih _ a (fun hmem => ha (List.mem_of_mem_erase hmem))

theorem foldl_erase_not_mem (mid : L → Nat) :
    ∀ (layers : List L) (l0 : List Nat), l0.Nodup → ∀ l ∈ layers,
      mid l ∉ layers.foldl (fun acc la => acc.erase (mid la)) l0 := by
  intro layers
  induction layers with
  | nil => intro l0 _ l hl; cases hl
  | cons x xs ih =>
    intro l0 hnd l hl
    rcases List.mem_cons.1 hl with rfl | hmem
    · simp only [List.foldl_cons]
      exact foldl_erase_keeps_not_mem mid xs _ _ (hnd.not_mem_erase)
    · exact ih _ (hnd.erase _) l hmem

theorem foldl_destroyLayerStep_eq :
    ∀ (layers : List SuperParallax3D.Layer) (st : SuperParallax3D.State),
      layers.foldl SuperParallax3D.destroyLayerStep st =
        { st with
          sceneMeshes :=
            layers.foldl (fun acc la => acc.erase la.meshId) st.sceneMeshes,
          visibility :=
            layers.foldl (fun v la => Function.update v la.element "") st.visibility } := by
  intro layers
  induction layers with
  | nil => intro st; rfl
  | cons x xs ih =>
    intro st
    simp only [List.foldl_cons]
    rw [ih]
    rfl

theorem eraseP_append_singleton {α : Type} (p : α → Bool) (xs : List α) (a : α)
    (hxs : ∀ b ∈ xs, p b = false) (ha : p a = true) :
    (xs ++ [a]).eraseP p = xs := by
  induction xs with
  | nil => simp [List.eraseP_cons_of_pos ha]
  | cons x xs ih =>
    have hx : p x = false := hxs x (List.mem_cons_self x xs)
    simp only [List.cons_append, List.eraseP_cons, hx, cond_false,
      List.cons.injEq, true_and]
    exact ih (fun b hb => hxs b (List.mem_cons_of_mem x hb))

theorem eraseP_none {α : Type} (p : α → Bool) (xs : List α)
    (hxs : ∀ b ∈ xs, p b = false) : xs.eraseP p = xs :=
  List.eraseP_eq_self_iff.mpr (fun a ha hpa => by rw [hxs a ha] at hpa; cases hpa)

theorem stop_eq (s : SuperParallax.State) :
    SuperParallax.stop s =
      if SuperParallax.truthy s.animationFrameId then
        { s with isActive := false, animationFrameId := none }
      else { s with isActive := false } := rfl

theorem stop3_eq (s : SuperParallax3D.State) :
    SuperParallax3D.stop s =
      if SuperParallax.truthy s.animationFrameId then
        { s with isActive := false, animationFrameId := none }
      else { s with isActive := false } := rfl

theorem stop_proj (s : SuperParallax.State) :
    (SuperParallax.stop s).isActive = false ∧
    (SuperParallax.stop s).layers = s.layers ∧
    (SuperParallax.stop s).dom = s.dom ∧
    (SuperParallax.stop s).listeners = s.listeners ∧
    SuperParallax.truthy (SuperParallax.stop s).animationFrameId = false := by
  rw [stop_eq]
  cases h : SuperParallax.truthy s.animationFrameId
  · simp [h, SuperParallax.truthy]
    exact h
  · simp [h, SuperParallax.truthy]

theorem stop3_proj (s : SuperParallax3D.State) :
    (SuperParallax3D.stop s).isActive = false ∧
    (SuperParallax3D.stop s).layers = s.layers ∧
    (SuperParallax3D.stop s).visibility = s.visibility ∧
    (SuperParallax3D.stop s).sceneMeshes = s.sceneMeshes ∧
    (SuperParallax3D.stop s).listeners = s.listeners ∧
    SuperParallax.truthy (SuperParallax3D.stop s).animationFrameId = false := by
  rw [stop3_eq]
  cases h : SuperParallax.truthy s.animationFrameId
  · simp [h, SuperParallax.truthy]
    exact h
  · simp [h, SuperParallax.truthy]

end Helpers

/-- Claim C1: for every smoothing factor s (the configured smoothing option)
and every current/target pair, one animation tick updates each tracked scalar
(scroll, pointer x, pointer y) to exactly current + (target - current) * s;
in particular with smoothing 0.1 and a scroll target jump from 0 to 100, tick
one gives current 10 and tick two gives 19. -/
theorem C1_tick_advances_by_lerp (s : SuperParallax.State) (fid : Nat)
    (h : s.isActive = true) :
    (SuperParallax.animate s fid).scroll
        = SuperParallax.lerp s.scroll s.targetScroll s.options.smoothing ∧
    (SuperParallax.animate s fid).mouse.1
        = SuperParallax.lerp s.mouse.1 s.targetMouse.1 s.options.smoothing ∧
    (SuperParallax.animate s fid).mouse.2
        = SuperParallax.lerp s.mouse.2 s.targetMouse.2 s.options.smoothing ∧
    (∀ c t f : ℚ, SuperParallax.lerp c t f = c + (t - c) * f) ∧
    SuperParallax.lerp 0 100 0.1 = 10 ∧
    SuperParallax.lerp 10 100 0.1 = 19 := by
  refine ⟨?_, ?_, ?_, fun c t f => rfl, by norm_num [SuperParallax.lerp],
    by norm_num [SuperParallax.lerp]⟩ <;>
    simp [SuperParallax.animate, h]

/-- Claim C1 witness at the running instance Ex.activeS with frame id 7. -/
theorem C1_witness :
    Ex.activeS.isActive = true ∧
    (SuperParallax.animate Ex.activeS 7).scroll = SuperParallax.lerp 0 100 0.1 ∧
    SuperParallax.lerp 0 100 0.1 = 10 := by
  have h := C1_tick_advances_by_lerp Ex.activeS 7 rfl
  exact ⟨rfl, h.1, h.2.2.2.2.1⟩

/-- Claim C2: each tick computes scrollOffset as scroll current times layer
scrollSpeed times the scroll multiplier times the scale 0.5, and the pointer
offsets as pointer current times layer mouseSpeed times the mouse multiplier
times the scale 50; in particular a layer with depth 1, scrollSpeed 1,
mouseSpeed 0 under scrollMultiplier 1 and smoothed scroll 100 gets the Y
translate -(100 * 1 * 1 * 0.5), negative because content moves opposite to
the scroll direction. -/
theorem C2_offset_scales (scroll mx my : ℚ) (layer : SuperParallax.Layer)
    (opts : SuperParallax.Options) :
    SuperParallax.scrollOffset scroll layer opts
        = scroll * layer.scrollSpeed * opts.scrollMultiplier * 0.5 ∧
    SuperParallax.mouseOffsetX mx layer opts
        = mx * layer.mouseSpeed * opts.mouseMultiplier * 50 ∧
    SuperParallax.mouseOffsetY my layer opts
        = my * layer.mouseSpeed * opts.mouseMultiplier * 50 ∧
    (∀ (e : Nat) (init : String) (mm sm : ℚ) (cm rl : Bool),
      (SuperParallax.layerTranslate 100 mx my
          ⟨e, 1, 1, 0, "both", init⟩ ⟨1, mm, sm, cm, rl⟩).2
        = -(100 * 1 * 1 * 0.5)) := by
  refine ⟨rfl, rfl, rfl, fun e init mm sm cm rl => ?_⟩
  norm_num [SuperParallax.layerTranslate, SuperParallax.scrollOffset,
    SuperParallax.mouseOffsetY]

/-- Claim C3: with axis mask x the pointer contribution to the Y component is
zero whatever the pointer Y value while the scroll contribution on Y remains;
with axis mask y the X component is exactly zero; the pointer Y term appears
exactly in the y and both branches. -/
theorem C3_axis_masking (scroll mx my d ss ms : ℚ) (e : Nat) (init : String)
    (opts : SuperParallax.Options) :
    SuperParallax.layerTranslate scroll mx my ⟨e, d, ss, ms, "x", init⟩ opts
        = (SuperParallax.mouseOffsetX mx ⟨e, d, ss, ms, "x", init⟩ opts,
           -(SuperParallax.scrollOffset scroll ⟨e, d, ss, ms, "x", init⟩ opts)) ∧
    SuperParallax.layerTranslate scroll mx my ⟨e, d, ss, ms, "y", init⟩ opts
        = (0,
           -(SuperParallax.scrollOffset scroll ⟨e, d, ss, ms, "y", init⟩ opts)
             + SuperParallax.mouseOffsetY my ⟨e, d, ss, ms, "y", init⟩ opts) ∧
    SuperParallax.layerTranslate scroll mx my ⟨e, d, ss, ms, "both", init⟩ opts
        = (SuperParallax.mouseOffsetX mx ⟨e, d, ss, ms, "both", init⟩ opts,
           -(SuperParallax.scrollOffset scroll ⟨e, d, ss, ms, "both", init⟩ opts)
             + SuperParallax.mouseOffsetY my ⟨e, d, ss, ms, "both", init⟩ opts) := by
  refine ⟨?_, ?_, ?_⟩ <;> simp [SuperParallax.layerTranslate]

/-- Claim C4 counterexample: addLayer returns the layer record, but
removeLayer compares the argument against layer elements with strict
equality, so passing the returned record removes nothing: after addLayer on
an empty instance followed by removeLayer on the returned handle, the
registry still holds the layer instead of being as before. -/
theorem C4_counterexample :
    (SuperParallax.removeLayer (SuperParallax.addLayer Ex.emptyS 17 1 1 1 "").1
        (SuperParallax.JSRef.layerRef
          (SuperParallax.addLayer Ex.emptyS 17 1 1 1 "").2)).layers
      ≠ Ex.emptyS.layers := by
  decide

/-- Claim C4 (amended): addLayer appends and returns the layer record, but
removal is keyed by the underlying element reference, not by the returned
record: addLayer followed by removeLayer on the element of the new layer
leaves the whole state, registry and rendered pose included, identical to
before addLayer, provided no earlier layer used that element; removeLayer on
the returned record itself is a no-op, and removeLayer never writes a pose
and is a no-op, not an error, for any absent handle. -/
theorem C4_add_remove_round_trip (s : SuperParallax.State) (e : Nat)
    (d ss ms : ℚ) (init : String) (h : ∀ l ∈ s.layers, l.element ≠ e) :
    SuperParallax.removeLayer (SuperParallax.addLayer s e d ss ms init).1
        (SuperParallax.JSRef.elemRef e) = s ∧
    SuperParallax.removeLayer (SuperParallax.addLayer s e d ss ms init).1
        (SuperParallax.JSRef.layerRef (SuperParallax.addLayer s e d ss ms init).2)
      = (SuperParallax.addLayer s e d ss ms init).1 ∧
    (∀ x : SuperParallax.JSRef,
      (∀ l ∈ s.layers, x ≠ SuperParallax.JSRef.elemRef l.element) →
      SuperParallax.removeLayer s x = s) := by
  refine ⟨?_, ?_, ?_⟩
  · simp only [SuperParallax.removeLayer, SuperParallax.addLayer]
    rw [eraseP_append_singleton _ _ _ ?hxs ?ha]
    case hxs =>
      intro b hb
      simpa using fun hc => (h b hb) hc.symm
    case ha => simp
  · simp only [SuperParallax.removeLayer, SuperParallax.addLayer]
    rw [eraseP_none]
    intro b _
    simp
  · intro x hx
    simp only [SuperParallax.removeLayer]
    rw [eraseP_none]
    intro b hb
    simpa using hx b hb

/-- Claim C4 witness: the amended round trip at the empty instance with a
fresh element 17. -/
theorem C4_witness :
    SuperParallax.removeLayer (SuperParallax.addLayer Ex.emptyS 17 1 1 1 "").1
        (SuperParallax.JSRef.elemRef 17) = Ex.emptyS :=
  (C4_add_remove_round_trip Ex.emptyS 17 1 1 1 "" (by simp [Ex.emptyS])).1

/-- Claim C5 counterexample: a specified per-axis speed is not always used:
the fallback is the JavaScript or-operator, so a scroll speed attribute that
parses to 0 is falsy and the layer takes depth 2 instead of the specified
0. -/
theorem C5_counterexample :
    (SuperParallax.mkLayer 3 (some 2) (some 0) none none "").scrollSpeed = 2 ∧
    (SuperParallax.mkLayer 3 (some 2) (some 0) none none "").scrollSpeed ≠ 0 := by
  decide

/-- Claim C5 (amended): depth defaults to 1 in the 2D variant and to 0 in the
3D variant when unspecified; scrollSpeed and mouseSpeed default to depth when
unset; a specified per-axis speed is used as an independent multiplier only
when it parses to a nonzero float, while a specified 0 (or a non-numeric
value) is falsy under the or-fallback and falls back to depth. -/
theorem C5_discovery_defaults (e m : Nat) (init : String)
    (da sa ma : Option ℚ) (ax : Option String) (v : ℚ) (hv : v ≠ 0) :
    (SuperParallax.mkLayer e none sa ma ax init).depth = 1 ∧
    (SuperParallax3D.mkLayer m e none sa ma).depth = 0 ∧
    (SuperParallax.mkLayer e da none ma ax init).scrollSpeed
        = (SuperParallax.mkLayer e da none ma ax init).depth ∧
    (SuperParallax.mkLayer e da sa none ax init).mouseSpeed
        = (SuperParallax.mkLayer e da sa none ax init).depth ∧
    (SuperParallax.mkLayer e da (some v) ma ax init).scrollSpeed = v ∧
    (SuperParallax.mkLayer e da sa (some v) ax init).mouseSpeed = v ∧
    (SuperParallax3D.mkLayer m e da none ma).scrollSpeed
        = (SuperParallax3D.mkLayer m e da none ma).depth ∧
    (SuperParallax3D.mkLayer m e da (some v) ma).scrollSpeed = v ∧
    (SuperParallax.mkLayer e da sa ma none init).axis = "both" := by
  refine ⟨rfl, rfl, rfl, rfl, ?_, ?_, rfl, ?_, rfl⟩ <;>
    simp [SuperParallax.mkLayer, SuperParallax3D.mkLayer, SuperParallax.floatOr, hv]

/-- Claim C5 witness: the amended defaults at a specified nonzero speed 7. -/
theorem C5_witness :
    (SuperParallax.mkLayer 3 none none none none "").depth = 1 ∧
    (SuperParallax.mkLayer 3 (some 2) (some 7) none none "").scrollSpeed = 7 := by
  have h := C5_discovery_defaults 3 0 "" (some 2) none none none 7 (by norm_num)
  exact ⟨h.1, h.2.2.2.2.1⟩

/-- Claim C6 counterexample: the 3D destroy does not restore a mesh to its
captured initial position; it removes the mesh from the scene and leaves its
position where the scroll put it: on the instance Ex.scrolled3S, whose single
registered layer has initial position (0, 0, -2) and whose mesh has been
scrolled to (0, -7, -2), the mesh position after destroy is still (0, -7,
-2). -/
theorem C6_counterexample :
    Ex.scrolled3S.layers = [Ex.lay3A] ∧
    Ex.lay3A.initialPosition = (0, 0, -2) ∧
    (SuperParallax3D.destroy Ex.scrolled3S).meshPos 5 = (0, -7, -2) ∧
    ((0 : ℚ), (-7 : ℚ), (-2 : ℚ)) ≠ Ex.lay3A.initialPosition := by
  refine ⟨rfl, ?_, rfl, ?_⟩
  · simp only [Ex.lay3A, SuperParallax3D.mkLayer, SuperParallax.floatOr]
    norm_num
  · simp only [Ex.lay3A, SuperParallax3D.mkLayer, SuperParallax.floatOr]
    norm_num

/-- Claim C6 (amended): destroy stops the frame loop, deregisters all event
sources, restores the rendered base state of every registered layer — in the
2D variant it writes the captured initial transform back, in the 3D variant
it restores the visibility of the hidden source element and removes the mesh
from the scene (the mesh position is not rewritten; the mesh is discarded) —
and leaves the Layer Registry empty; in particular both layers of a
two-layer controller are so restored. -/
theorem C6_destroy_restores (s : SuperParallax.State)
    (s3 : SuperParallax3D.State)
    (h2 : (s.layers.map SuperParallax.Layer.element).Nodup)
    (h3e : (s3.layers.map SuperParallax3D.Layer.element).Nodup)
    (h3m : s3.sceneMeshes.Nodup) :
    (SuperParallax.destroy s).layers = [] ∧
    (SuperParallax.destroy s).isActive = false ∧
    (SuperParallax.destroy s).listeners = false ∧
    (∀ l ∈ s.layers, (SuperParallax.destroy s).dom l.element
        = SuperParallax.TransformVal.str l.initialTransform) ∧
    (SuperParallax3D.destroy s3).layers = [] ∧
    (SuperParallax3D.destroy s3).isActive = false ∧
    (SuperParallax3D.destroy s3).listeners = false ∧
    (SuperParallax3D.destroy s3).rendererAttached = false ∧
    (∀ l ∈ s3.layers, (SuperParallax3D.destroy s3).visibility l.element = "") ∧
    (∀ l ∈ s3.layers, l.meshId ∉ (SuperParallax3D.destroy s3).sceneMeshes) := by
  obtain ⟨ha2, hl2, hd2, _, _⟩ := stop_proj s
  obtain ⟨ha3, hl3, hv3, hm3, _, _⟩ := stop3_proj s3
  refine ⟨rfl, ha2, rfl, ?_, rfl, ?_, ?_, rfl, ?_, ?_⟩
  · intro l hl
    show ((SuperParallax.stop s).layers.foldl _ ((SuperParallax.stop s).dom))
        l.element = _
    rw [hl2, hd2]
    exact foldl_update_apply SuperParallax.Layer.element
      (fun la => SuperParallax.TransformVal.str la.initialTransform)
      s.layers s.dom l hl h2
  · show ((SuperParallax3D.stop s3).layers.foldl SuperParallax3D.destroyLayerStep
        _).isActive = false
    rw [foldl_destroyLayerStep_eq]
    exact ha3
  · show ((SuperParallax3D.stop s3).layers.foldl SuperParallax3D.destroyLayerStep
        _).listeners = false
    rw [foldl_destroyLayerStep_eq]
  · intro l hl
    show ((SuperParallax3D.stop s3).layers.foldl SuperParallax3D.destroyLayerStep
        _).visibility l.element = ""
    rw [foldl_destroyLayerStep_eq]
    show ((SuperParallax3D.stop s3).layers.foldl _
        ((SuperParallax3D.stop s3).visibility)) l.element = ""
    rw [hl3, hv3]
    exact foldl_update_apply SuperParallax3D.Layer.element (fun _ => "")
      s3.layers s3.visibility l hl h3e
  · intro l hl
    show l.meshId ∉ ((SuperParallax3D.stop s3).layers.foldl
        SuperParallax3D.destroyLayerStep _).sceneMeshes
    rw [foldl_destroyLayerStep_eq]
    show l.meshId ∉ (SuperParallax3D.stop s3).layers.foldl _
        ((SuperParallax3D.stop s3).sceneMeshes)
    rw [hl3, hm3]
    exact foldl_erase_not_mem SuperParallax3D.Layer.meshId s3.layers
      s3.sceneMeshes h3m l hl

/-- Claim C6 witness: destroy on the two-layer controllers Ex.twoS and
Ex.two3S restores both base transforms, both visibilities, removes both
meshes, and empties both registries. -/
theorem C6_witness :
    (SuperParallax.destroy Ex.twoS).layers = [] ∧
    (SuperParallax.destroy Ex.twoS).dom 1 = SuperParallax.TransformVal.str "base1" ∧
    (SuperParallax.destroy Ex.twoS).dom 2 = SuperParallax.TransformVal.str "" ∧
    (SuperParallax3D.destroy Ex.two3S).layers = [] ∧
    (SuperParallax3D.destroy Ex.two3S).visibility 9 = "" ∧
    (SuperParallax3D.destroy Ex.two3S).visibility 10 = "" ∧
    5 ∉ (SuperParallax3D.destroy Ex.two3S).sceneMeshes ∧
    6 ∉ (SuperParallax3D.destroy Ex.two3S).sceneMeshes := by
  have h := C6_destroy_restores Ex.twoS Ex.two3S (by decide) (by decide) (by decide)
  refine ⟨h.1, ?_, ?_, h.2.2.2.2.1, ?_, ?_, ?_, ?_⟩
  · exact h.2.2.2.1 Ex.layA (by simp [Ex.twoS])
  · exact h.2.2.2.1 Ex.layB (by simp [Ex.twoS])
  · exact h.2.2.2.2.2.2.2.2.1 Ex.lay3A (by simp [Ex.two3S])
  · exact h.2.2.2.2.2.2.2.2.1 Ex.lay3B (by simp [Ex.two3S])
  · exact h.2.2.2.2.2.2.2.2.2 Ex.lay3A (by simp [Ex.two3S])
  · exact h.2.2.2.2.2.2.2.2.2 Ex.lay3B (by simp [Ex.two3S])

/-- Claim C7: stop is idempotent, a second stop leaves the whole controller
state identical to one stop, and each stop leaves the loop Idle with no live
pending frame request, in both variants. -/
theorem C7_stop_idempotent (s : SuperParallax.State) (s3 : SuperParallax3D.State) :
    SuperParallax.stop (SuperParallax.stop s) = SuperParallax.stop s ∧
    (SuperParallax.stop s).isActive = false ∧
    SuperParallax.truthy (SuperParallax.stop s).animationFrameId = false ∧
    SuperParallax3D.stop (SuperParallax3D.stop s3) = SuperParallax3D.stop s3 ∧
    (SuperParallax3D.stop s3).isActive = false ∧
    SuperParallax.truthy (SuperParallax3D.stop s3).animationFrameId = false := by
  obtain ⟨ha, _, _, _, hT⟩ := stop_proj s
  obtain ⟨ha3, _, _, _, _, hT3⟩ := stop3_proj s3
  refine ⟨?_, ha, hT, ?_, ha3, hT3⟩
  · rw [stop_eq (SuperParallax.stop s), if_neg (by simp [hT])]
    rw [← ha]
  · rw [stop3_eq (SuperParallax3D.stop s3), if_neg (by simp [hT3])]
    rw [← ha3]

/-- Claim C8: for every smoothing factor s in (0, 1], every initial current
and fixed target, the distance to the target after n ticks is (1 - s) to the
n times the initial distance, and the current value comes within any positive
epsilon of the target after finitely many ticks. -/
theorem C8_convergence (current target s : ℚ) (hs0 : 0 < s) (hs1 : s ≤ 1) :
    (∀ n : Nat, |SuperParallax.advanceN current target s n - target|
        = (1 - s) ^ n * |current - target|) ∧
    (∀ ε : ℚ, 0 < ε → ∃ n : Nat,
        |SuperParallax.advanceN current target s n - target| < ε) := by
  have hdist : ∀ n : Nat, |SuperParallax.advanceN current target s n - target|
      = (1 - s) ^ n * |current - target| := by
    intro n
    induction n with
    | zero => simp [SuperParallax.advanceN]
    | succ n ih =>
      have hstep : SuperParallax.advanceN current target s (n + 1) - target
          = (SuperParallax.advanceN current target s n - target) * (1 - s) := by
        simp only [SuperParallax.advanceN, SuperParallax.lerp]
        ring
      rw [hstep, abs_mul, abs_of_nonneg (by linarith : (0 : ℚ) ≤ 1 - s), ih,
        pow_succ]
      ring
  refine ⟨hdist, fun ε hε => ?_⟩
  rcases eq_or_lt_of_le (abs_nonneg (current - target)) with hD | hD
  · refine ⟨0, ?_⟩
    rw [hdist 0, pow_zero, one_mul, ← hD]
    exact hε
  · obtain ⟨n, hn⟩ := exists_pow_lt_of_lt_one (div_pos hε hD)
      (by linarith : 1 - s < 1)
    refine ⟨n, ?_⟩
    rw [hdist n]
    calc (1 - s) ^ n * |current - target|
        < ε / |current - target| * |current - target| :=
          mul_lt_mul_of_pos_right hn hD
      _ = ε := div_mul_cancel₀ ε (ne_of_gt hD)

/-- Claim C8 witness: with smoothing one half, start 0 and target 100, the
distance after two ticks is one quarter of the initial distance, and some
tick count brings the current value within one hundredth of the target. -/
theorem C8_witness :
    |SuperParallax.advanceN 0 100 (1 / 2) 2 - 100|
        = (1 - 1 / 2) ^ 2 * |(0 : ℚ) - 100| ∧
    (∃ n : Nat, |SuperParallax.advanceN 0 100 (1 / 2) n - 100| < 1 / 100) := by
  have h := C8_convergence 0 100 (1 / 2) (by norm_num) (by norm_num)
  exact ⟨h.1 2, h.2 (1 / 100) (by norm_num)⟩

/-- Claim C9: construction reports a synchronous error exactly when the
container cannot be resolved, or, in the 3D variant only, when the Three.js
rendering capability is absent; otherwise construction succeeds. -/
theorem C9_construct_fail_fast (resolved : Option Nat)
    (o2 : SuperParallax.Options) (disc : List SuperParallax.Layer)
    (dom0 : Nat → SuperParallax.TransformVal) (es : ℚ) (fid : Nat)
    (three : Bool) (o3 : SuperParallax3D.Options)
    (disc3 : List SuperParallax3D.Layer) (vis0 : Nat → String) :
    SuperParallax.isOk (SuperParallax.construct resolved o2 disc dom0 es fid)
        = resolved.isSome ∧
    SuperParallax.isOk
        (SuperParallax3D.construct three resolved o3 disc3 vis0 es fid)
      = (three && resolved.isSome) := by
  constructor
  · cases resolved <;> rfl
  · cases three <;> cases resolved <;> rfl

/-- Claim C10: a tick callback that fires while the controller is not active
returns at once: it leaves the whole state untouched, smoothing state, layer
transforms and meshes included, and schedules nothing, in both variants. -/
theorem C10_idle_tick_is_noop (s : SuperParallax.State)
    (s3 : SuperParallax3D.State) (fid fid3 : Nat)
    (h : s.isActive = false) (h3 : s3.isActive = false) :
    SuperParallax.animate s fid = s ∧ SuperParallax3D.animate s3 fid3 = s3 := by
  constructor
  · simp [SuperParallax.animate, h]
  · simp [SuperParallax3D.animate, h3]

/-- Claim C10 witness: the idle instances absorb a stray tick callback. -/
theorem C10_witness :
    SuperParallax.animate Ex.idleS 9 = Ex.idleS ∧
    SuperParallax3D.animate Ex.idle3S 9 = Ex.idle3S :=
  C10_idle_tick_is_noop Ex.idleS Ex.idle3S 9 9 rfl rfl
